import Mathlib

/-!
Shallow embedding of `src/net/tcp.rs` (mio's TCP primitives).

The platform socket layer (`sys`, `net2::TcpBuilder`, the OS calls) is an
external collaborator of this file's code; it is modelled by an explicit
environment `NetEnv` of response functions, and by explicit result
parameters for the `Evented` operations.  Handles (builder sockets,
`std::net` sockets, `sys` sockets, raw fds) are opaque and modelled as
`Nat`.  Interior mutability of the `selector_id` field (an `AtomicUsize`
in the source) is modelled by explicit state passing: each `&self` method
returns the post-state of the receiver next to its result.  To reason
about the order of platform-level calls, the constructors and the
`Evented` operations also return the list of platform calls they issued.
-/

/-- Error kinds distinguished at this layer, mirroring `std::io::ErrorKind`
as far as the claims need: `wouldBlock` is the non-blocking "not ready"
signal, `notFound` a typical platform bookkeeping error, `other` anything
else. -/
inductive ErrorKind where
  | wouldBlock
  | notFound
  | other
deriving DecidableEq, Repr

/-- Platform-level (OS) error, as produced by the `sys` layer. -/
structure SysError where
  kind : ErrorKind
  code : Nat
deriving DecidableEq, Repr

/-- Errors surfaced by this layer: either the locally raised affinity
conflict (`io::Error::new(Other, "socket already registered")` in the
source, never produced by the platform layer) or a platform error passed
through verbatim. -/
inductive IoError where
  | affinityConflict
  | sys (e : SysError)
deriving DecidableEq, Repr

/-- Lift a platform result into this layer's error type, as the source's
`try!` / `?` does implicitly via `From<io::Error>`. -/
def liftSys : Except SysError α → Except IoError α
  | .error e => .error (.sys e)
  | .ok a => .ok a

/-- Address family of a socket address. -/
inductive Family where
  | v4
  | v6
deriving DecidableEq, Repr

/-- IPv4 address, four octets (`std::net::Ipv4Addr`). -/
structure Ipv4Addr where
  o1 : Nat
  o2 : Nat
  o3 : Nat
  o4 : Nat
deriving DecidableEq, Repr

/-- IPv6 address, eight 16-bit segments (`std::net::Ipv6Addr`). -/
structure Ipv6Addr where
  s1 : Nat
  s2 : Nat
  s3 : Nat
  s4 : Nat
  s5 : Nat
  s6 : Nat
  s7 : Nat
  s8 : Nat
deriving DecidableEq, Repr

/-- IPv4 socket address (`std::net::SocketAddrV4`). -/
structure SocketAddrV4 where
  ip : Ipv4Addr
  port : Nat
deriving DecidableEq, Repr

/-- IPv6 socket address (`std::net::SocketAddrV6`), with flow info and
scope id as in the standard library type. -/
structure SocketAddrV6 where
  ip : Ipv6Addr
  port : Nat
  flowinfo : Nat
  scope_id : Nat
deriving DecidableEq, Repr

/-- Socket address (`std::net::SocketAddr`). -/
inductive SocketAddr where
  | V4 (a : SocketAddrV4)
  | V6 (a : SocketAddrV6)
deriving DecidableEq, Repr

/-- Address family of a `SocketAddr`. -/
def SocketAddr.family : SocketAddr → Family
  | .V4 _ => .v4
  | .V6 _ => .v6

/-- Modelled from the spec: the `SelectorId` type (the spec's
SelectorAffinity) lives in `src/net/mod.rs`, which is not part of the
shown sources.  Per spec §3 it is "an optional identity of the reactor it
is bound to (unset at construction)"; we model it as `Option Nat` where
`none` is unset (the source uses an `AtomicUsize` with `0` for unset). -/
abbrev SelectorId := Option Nat

/-- Modelled from the spec: `SelectorId::new()` — "unset at construction". -/
def SelectorId.new : SelectorId := none

/-- Modelled from the spec: `SelectorId::clone` copies "the *current*
affinity value, not a live link" (spec §3); value copy of the stored id. -/
def SelectorId.clone (s : SelectorId) : SelectorId := s

/-- Modelled from the spec: `SelectorId::associate_selector(poll)`
(`src/net/mod.rs`, called from `register` in `tcp.rs`).  Per spec §4.1 the
"first call stamps this component's SelectorAffinity with the reactor's
identity"; if "already stamped with a *different* reactor identity, the
call fails with an `already registered elsewhere` error"; associating with
the same identity "repeatedly succeeds (idempotent)".  Returns the
post-state of the affinity cell on success. -/
def SelectorId.associate_selector (s : SelectorId) (pollId : Nat) :
    Except IoError SelectorId :=
  match s with
  | none => .ok (some pollId)
  | some id => if id = pollId then .ok (some pollId) else .error .affinityConflict

/-- Shutdown directions (`std::net::Shutdown`). -/
inductive Shutdown where
  | recv
  | send
  | both
deriving DecidableEq, Repr

/-- Reactor handle: all this layer uses of `Poll` is its comparable
selector identity. -/
structure Poll where
  id : Nat
deriving DecidableEq, Repr

abbrev Token := Nat
abbrev Ready := Nat
abbrev PollOpt := Nat

/-- A platform-level readiness-subscription call, as issued by the
`Evented` implementations (`self.sys.register` and friends). -/
inductive SysCall where
  | register (h : Nat) (pollId : Nat) (token : Token) (interest : Ready) (opts : PollOpt)
  | reregister (h : Nat) (pollId : Nat) (token : Token) (interest : Ready) (opts : PollOpt)
  | deregister (h : Nat) (pollId : Nat)
deriving DecidableEq, Repr

/-- A platform-level socket-construction/configuration call, as issued by
`connect`, `connect_stream`, `bind` and `from_listener`. -/
inductive NetCall where
  | newBuilder (fam : Family)
  | reuseAddress (b : Nat) (v : Bool)
  | builderBind (b : Nat) (addr : SocketAddr)
  | builderListen (b : Nat) (backlog : Nat)
  | toTcpStream (b : Nat)
  | sysStreamConnect (s : Nat) (addr : SocketAddr)
  | sysListenerNew (l : Nat) (addr : SocketAddr)
deriving DecidableEq, Repr

/-- Environment of platform responses: one function per platform operation
this layer consumes (spec §6).  `isUnix` / `isWindows` model `cfg!(unix)`
and `cfg!(windows)`. -/
structure NetEnv where
  isUnix : Bool
  isWindows : Bool
  newBuilder : Family → Except SysError Nat
  reuseAddress : Nat → Bool → Except SysError Unit
  builderBind : Nat → SocketAddr → Except SysError Unit
  builderListen : Nat → Nat → Except SysError Nat
  toTcpStream : Nat → Except SysError Nat
  sysStreamConnect : Nat → SocketAddr → Except SysError Nat
  sysListenerNew : Nat → SocketAddr → Except SysError Nat
  sysStreamTryClone : Nat → Except SysError Nat
  sysListenerTryClone : Nat → Except SysError Nat
  sysAccept : Nat → Except SysError (Nat × SocketAddr)
  sysRead : Nat → List Nat → Except SysError (Nat × List Nat)
  sysWrite : Nat → List Nat → Except SysError Nat
  sysFlush : Nat → Except SysError Unit
  sysShutdown : Nat → Shutdown → Except SysError Unit
  sysSetNodelay : Nat → Bool → Except SysError Unit
  sysNodelay : Nat → Except SysError Bool
  sysSetKeepaliveMs : Nat → Option Nat → Except SysError Unit
  sysKeepaliveMs : Nat → Except SysError (Option Nat)
  sysSetTtl : Nat → Nat → Except SysError Unit
  sysTtl : Nat → Except SysError Nat
  sysSetOnlyV6 : Nat → Bool → Except SysError Unit
  sysOnlyV6 : Nat → Except SysError Bool
  sysTakeError : Nat → Except SysError (Option SysError)
  sysPeerAddr : Nat → Except SysError SocketAddr
  sysLocalAddr : Nat → Except SysError SocketAddr

/-- `TcpStream`: an owned platform socket handle plus the selector
affinity cell. -/
structure TcpStream where
  sys : Nat
  selector_id : SelectorId
deriving DecidableEq, Repr

/-- `TcpListener`: an owned platform listening-socket handle plus the
selector affinity cell. -/
structure TcpListener where
  sys : Nat
  selector_id : SelectorId
deriving DecidableEq, Repr

/-- `fn inaddr_any(other: &SocketAddr) -> SocketAddr` (`tcp.rs:181-194`):
wildcard address of the same family, all-zero IP, port 0 (and for V6,
flowinfo 0 and scope id 0). -/
def inaddr_any (other : SocketAddr) : SocketAddr :=
  match other with
  | .V4 _ => .V4 ⟨⟨0, 0, 0, 0⟩, 0⟩
  | .V6 _ => .V6 ⟨⟨0, 0, 0, 0, 0, 0, 0, 0⟩, 0, 0, 0⟩

/-- `TcpStream::connect_stream(stream, addr)` (`tcp.rs:66-72`): issue the
platform non-blocking connect on the given `std::net` stream; on success
wrap the resulting `sys` stream with a fresh, unset affinity. -/
def TcpStream.connect_stream (env : NetEnv) (stream : Nat) (addr : SocketAddr) :
    Except IoError TcpStream × List NetCall :=
  match env.sysStreamConnect stream addr with
  | .error e => (.error (.sys e), [.sysStreamConnect stream addr])
  | .ok s => (.ok ⟨s, SelectorId.new⟩, [.sysStreamConnect stream addr])

/-- The Windows-only pre-connect bind in `TcpStream::connect`
(`tcp.rs:42-44`): performed only when `cfg!(windows)`. -/
def winBindStep (env : NetEnv) (sock : Nat) (addr : SocketAddr) :
    Except SysError Unit :=
  if env.isWindows then env.builderBind sock (inaddr_any addr) else .ok ()

/-- Platform calls issued by the Windows-only pre-connect bind. -/
def winBindCalls (env : NetEnv) (sock : Nat) (addr : SocketAddr) : List NetCall :=
  if env.isWindows then [.builderBind sock (inaddr_any addr)] else []

/-- `TcpStream::connect(addr)` (`tcp.rs:35-46`): build a `TcpBuilder` of
the address's family, on Windows bind it to the wildcard address of the
matching family, convert it to a `std::net` stream, and hand it to
`connect_stream`. -/
def TcpStream.connect (env : NetEnv) (addr : SocketAddr) :
    Except IoError TcpStream × List NetCall :=
  match env.newBuilder addr.family with
  | .error e => (.error (.sys e), [.newBuilder addr.family])
  | .ok sock =>
    match winBindStep env sock addr with
    | .error e => (.error (.sys e), .newBuilder addr.family :: winBindCalls env sock addr)
    | .ok _ =>
      match env.toTcpStream sock with
      | .error e =>
        (.error (.sys e), .newBuilder addr.family :: winBindCalls env sock addr ++ [.toTcpStream sock])
      | .ok ns =>
        let cs := TcpStream.connect_stream env ns addr
        (cs.1, .newBuilder addr.family :: winBindCalls env sock addr ++ [.toTcpStream sock] ++ cs.2)

/-- `TcpStream::try_clone` (`tcp.rs:90-97`): duplicate the platform
handle; the new value carries a copy of the current affinity value. -/
def TcpStream.try_clone (env : NetEnv) (st : TcpStream) : Except IoError TcpStream :=
  match env.sysStreamTryClone st.sys with
  | .error e => .error (.sys e)
  | .ok s => .ok ⟨s, SelectorId.clone st.selector_id⟩

/-- `impl FromRawFd for TcpStream` (`tcp.rs:438-445`): adopt a raw handle
with a fresh, unset affinity. -/
def TcpStream.from_raw_fd (fd : Nat) : TcpStream :=
  ⟨fd, SelectorId.new⟩

/-- `TcpStream::peer_addr` (`tcp.rs:75-77`): pure delegation. -/
def TcpStream.peer_addr (env : NetEnv) (st : TcpStream) :
    TcpStream × Except IoError SocketAddr :=
  (st, liftSys (env.sysPeerAddr st.sys))

/-- `TcpStream::local_addr` (`tcp.rs:80-82`): pure delegation. -/
def TcpStream.local_addr (env : NetEnv) (st : TcpStream) :
    TcpStream × Except IoError SocketAddr :=
  (st, liftSys (env.sysLocalAddr st.sys))

/-- `TcpStream::shutdown(how)` (`tcp.rs:104-106`): pure delegation. -/
def TcpStream.shutdown (env : NetEnv) (st : TcpStream) (how : Shutdown) :
    TcpStream × Except IoError Unit :=
  (st, liftSys (env.sysShutdown st.sys how))

/-- `TcpStream::set_nodelay` (`tcp.rs:115-117`): pure delegation. -/
def TcpStream.set_nodelay (env : NetEnv) (st : TcpStream) (v : Bool) :
    TcpStream × Except IoError Unit :=
  (st, liftSys (env.sysSetNodelay st.sys v))

/-- `TcpStream::nodelay` (`tcp.rs:124-126`): pure delegation. -/
def TcpStream.nodelay (env : NetEnv) (st : TcpStream) :
    TcpStream × Except IoError Bool :=
  (st, liftSys (env.sysNodelay st.sys))

/-- `TcpStream::set_keepalive_ms` (`tcp.rs:140-142`): pure delegation. -/
def TcpStream.set_keepalive_ms (env : NetEnv) (st : TcpStream) (v : Option Nat) :
    TcpStream × Except IoError Unit :=
  (st, liftSys (env.sysSetKeepaliveMs st.sys v))

/-- `TcpStream::keepalive_ms` (`tcp.rs:150-152`): pure delegation. -/
def TcpStream.keepalive_ms (env : NetEnv) (st : TcpStream) :
    TcpStream × Except IoError (Option Nat) :=
  (st, liftSys (env.sysKeepaliveMs st.sys))

/-- `TcpStream::set_ttl` (`tcp.rs:158-160`): pure delegation. -/
def TcpStream.set_ttl (env : NetEnv) (st : TcpStream) (v : Nat) :
    TcpStream × Except IoError Unit :=
  (st, liftSys (env.sysSetTtl st.sys v))

/-- `TcpStream::ttl` (`tcp.rs:167-169`): pure delegation. -/
def TcpStream.ttl (env : NetEnv) (st : TcpStream) :
    TcpStream × Except IoError Nat :=
  (st, liftSys (env.sysTtl st.sys))

/-- `TcpStream::take_error` (`tcp.rs:176-178`): pure delegation. -/
def TcpStream.take_error (env : NetEnv) (st : TcpStream) :
    TcpStream × Except IoError (Option SysError) :=
  (st, liftSys (env.sysTakeError st.sys))

/-- `impl Read for TcpStream` (`tcp.rs:196-200`): `(&self.sys).read(buf)`. -/
def TcpStream.read (env : NetEnv) (st : TcpStream) (buf : List Nat) :
    TcpStream × Except IoError (Nat × List Nat) :=
  (st, liftSys (env.sysRead st.sys buf))

/-- `impl Read for &TcpStream` (`tcp.rs:202-206`): `(&self.sys).read(buf)`. -/
def TcpStream.read_ref (env : NetEnv) (st : TcpStream) (buf : List Nat) :
    TcpStream × Except IoError (Nat × List Nat) :=
  (st, liftSys (env.sysRead st.sys buf))

/-- `impl Write for TcpStream`, `write` (`tcp.rs:209-211`). -/
def TcpStream.write (env : NetEnv) (st : TcpStream) (buf : List Nat) :
    TcpStream × Except IoError Nat :=
  (st, liftSys (env.sysWrite st.sys buf))

/-- `impl Write for &TcpStream`, `write` (`tcp.rs:219-221`). -/
def TcpStream.write_ref (env : NetEnv) (st : TcpStream) (buf : List Nat) :
    TcpStream × Except IoError Nat :=
  (st, liftSys (env.sysWrite st.sys buf))

/-- `impl Write for TcpStream`, `flush` (`tcp.rs:213-215`). -/
def TcpStream.flush (env : NetEnv) (st : TcpStream) :
    TcpStream × Except IoError Unit :=
  (st, liftSys (env.sysFlush st.sys))

/-- `impl Write for &TcpStream`, `flush` (`tcp.rs:223-225`). -/
def TcpStream.flush_ref (env : NetEnv) (st : TcpStream) :
    TcpStream × Except IoError Unit :=
  (st, liftSys (env.sysFlush st.sys))

/-- `impl Evented for TcpStream`, `register` (`tcp.rs:229-233`): check and
stamp the affinity first (`try!`), then — only then — issue the platform
subscription; `sysRes` is the platform's answer to `self.sys.register`
when that call is made.  Returns the post-state of the stream, the call's
result, and the platform subscription calls issued. -/
def TcpStream.register (st : TcpStream) (poll : Poll) (token : Token)
    (interest : Ready) (opts : PollOpt) (sysRes : Except SysError Unit) :
    TcpStream × Except IoError Unit × List SysCall :=
  match SelectorId.associate_selector st.selector_id poll.id with
  | .error e => (st, .error e, [])
  | .ok sid =>
    (⟨st.sys, sid⟩, liftSys sysRes, [.register st.sys poll.id token interest opts])

/-- `impl Evented for TcpStream`, `reregister` (`tcp.rs:235-238`): no
affinity check, direct delegation. -/
def TcpStream.reregister (st : TcpStream) (poll : Poll) (token : Token)
    (interest : Ready) (opts : PollOpt) (sysRes : Except SysError Unit) :
    TcpStream × Except IoError Unit × List SysCall :=
  (st, liftSys sysRes, [.reregister st.sys poll.id token interest opts])

/-- `impl Evented for TcpStream`, `deregister` (`tcp.rs:240-242`): no
affinity check, direct delegation. -/
def TcpStream.deregister (st : TcpStream) (poll : Poll)
    (sysRes : Except SysError Unit) :
    TcpStream × Except IoError Unit × List SysCall :=
  (st, liftSys sysRes, [.deregister st.sys poll.id])

/-- The `SO_REUSEADDR` step of `TcpListener::bind` (`tcp.rs:280-282`):
performed only when `cfg!(unix)`. -/
def reuseStep (env : NetEnv) (sock : Nat) : Except SysError Unit :=
  if env.isUnix then env.reuseAddress sock true else .ok ()

/-- Platform calls issued by the `SO_REUSEADDR` step. -/
def reuseCalls (env : NetEnv) (sock : Nat) : List NetCall :=
  if env.isUnix then [.reuseAddress sock true] else []

/-- `TcpListener::bind(addr)` (`tcp.rs:272-293`): build a `TcpBuilder` of
the address's family, set `SO_REUSEADDR` on Unix only, bind to `addr`,
listen with backlog 1024, and wrap the result (via `sys::TcpListener::new`)
with a fresh, unset affinity. -/
def TcpListener.bind (env : NetEnv) (addr : SocketAddr) :
    Except IoError TcpListener × List NetCall :=
  match env.newBuilder addr.family with
  | .error e => (.error (.sys e), [.newBuilder addr.family])
  | .ok sock =>
    match reuseStep env sock with
    | .error e => (.error (.sys e), .newBuilder addr.family :: reuseCalls env sock)
    | .ok _ =>
      match env.builderBind sock addr with
      | .error e =>
        (.error (.sys e), .newBuilder addr.family :: reuseCalls env sock ++ [.builderBind sock addr])
      | .ok _ =>
        match env.builderListen sock 1024 with
        | .error e =>
          (.error (.sys e),
           .newBuilder addr.family :: reuseCalls env sock ++ [.builderBind sock addr, .builderListen sock 1024])
        | .ok listener =>
          match env.sysListenerNew listener addr with
          | .error e =>
            (.error (.sys e),
             .newBuilder addr.family :: reuseCalls env sock ++
               [.builderBind sock addr, .builderListen sock 1024, .sysListenerNew listener addr])
          | .ok s =>
            (.ok ⟨s, SelectorId.new⟩,
             .newBuilder addr.family :: reuseCalls env sock ++
               [.builderBind sock addr, .builderListen sock 1024, .sysListenerNew listener addr])

/-- `TcpListener::from_listener(listener, addr)` (`tcp.rs:304-312`): adopt
an already bound+listening `std::net` socket, wrapping the `sys` listener
with a fresh, unset affinity. -/
def TcpListener.from_listener (env : NetEnv) (listener : Nat) (addr : SocketAddr) :
    Except IoError TcpListener × List NetCall :=
  match env.sysListenerNew listener addr with
  | .error e => (.error (.sys e), [.sysListenerNew listener addr])
  | .ok s => (.ok ⟨s, SelectorId.new⟩, [.sysListenerNew listener addr])

/-- `TcpListener::accept` (`tcp.rs:319-328`): map the platform accept
result, wrapping an accepted stream with a fresh, unset affinity and
pairing it with the peer address; any platform error (including
would-block) passes through unchanged. -/
def TcpListener.accept (env : NetEnv) (l : TcpListener) :
    Except IoError (TcpStream × SocketAddr) :=
  match env.sysAccept l.sys with
  | .error e => .error (.sys e)
  | .ok (s, a) => .ok (⟨s, SelectorId.new⟩, a)

/-- `TcpListener::local_addr` (`tcp.rs:331-333`): pure delegation. -/
def TcpListener.local_addr (env : NetEnv) (l : TcpListener) :
    TcpListener × Except IoError SocketAddr :=
  (l, liftSys (env.sysLocalAddr l.sys))

/-- `TcpListener::try_clone` (`tcp.rs:340-347`): duplicate the platform
handle; the new value carries a copy of the current affinity value. -/
def TcpListener.try_clone (env : NetEnv) (l : TcpListener) : Except IoError TcpListener :=
  match env.sysListenerTryClone l.sys with
  | .error e => .error (.sys e)
  | .ok s => .ok ⟨s, SelectorId.clone l.selector_id⟩

/-- `TcpListener::set_ttl` (`tcp.rs:353-355`): pure delegation. -/
def TcpListener.set_ttl (env : NetEnv) (l : TcpListener) (v : Nat) :
    TcpListener × Except IoError Unit :=
  (l, liftSys (env.sysSetTtl l.sys v))

/-- `TcpListener::ttl` (`tcp.rs:362-364`): pure delegation. -/
def TcpListener.ttl (env : NetEnv) (l : TcpListener) :
    TcpListener × Except IoError Nat :=
  (l, liftSys (env.sysTtl l.sys))

/-- `TcpListener::set_only_v6` (`tcp.rs:374-376`): pure delegation. -/
def TcpListener.set_only_v6 (env : NetEnv) (l : TcpListener) (v : Bool) :
    TcpListener × Except IoError Unit :=
  (l, liftSys (env.sysSetOnlyV6 l.sys v))

/-- `TcpListener::only_v6` (`tcp.rs:383-385`): pure delegation. -/
def TcpListener.only_v6 (env : NetEnv) (l : TcpListener) :
    TcpListener × Except IoError Bool :=
  (l, liftSys (env.sysOnlyV6 l.sys))

/-- `TcpListener::take_error` (`tcp.rs:392-394`): pure delegation. -/
def TcpListener.take_error (env : NetEnv) (l : TcpListener) :
    TcpListener × Except IoError (Option SysError) :=
  (l, liftSys (env.sysTakeError l.sys))

/-- `impl FromRawFd for TcpListener` (`tcp.rs:462-468`): adopt a raw
handle with a fresh, unset affinity. -/
def TcpListener.from_raw_fd (fd : Nat) : TcpListener :=
  ⟨fd, SelectorId.new⟩

/-- `impl Evented for TcpListener`, `register` (`tcp.rs:398-402`): check
and stamp the affinity first, then issue the platform subscription. -/
def TcpListener.register (l : TcpListener) (poll : Poll) (token : Token)
    (interest : Ready) (opts : PollOpt) (sysRes : Except SysError Unit) :
    TcpListener × Except IoError Unit × List SysCall :=
  match SelectorId.associate_selector l.selector_id poll.id with
  | .error e => (l, .error e, [])
  | .ok sid =>
    (⟨l.sys, sid⟩, liftSys sysRes, [.register l.sys poll.id token interest opts])

/-- `impl Evented for TcpListener`, `reregister` (`tcp.rs:404-407`): no
affinity check, direct delegation. -/
def TcpListener.reregister (l : TcpListener) (poll : Poll) (token : Token)
    (interest : Ready) (opts : PollOpt) (sysRes : Except SysError Unit) :
    TcpListener × Except IoError Unit × List SysCall :=
  (l, liftSys sysRes, [.reregister l.sys poll.id token interest opts])

/-- `impl Evented for TcpListener`, `deregister` (`tcp.rs:409-411`): no
affinity check, direct delegation. -/
def TcpListener.deregister (l : TcpListener) (poll : Poll)
    (sysRes : Except SysError Unit) :
    TcpListener × Except IoError Unit × List SysCall :=
  (l, liftSys sysRes, [.deregister l.sys poll.id])

/-- Environment in which every platform operation succeeds, with simple
concrete values; used to evaluate the development at concrete inputs. -/
def envOk : NetEnv where
  isUnix := true
  isWindows := false
  newBuilder := fun _ => .ok 10
  reuseAddress := fun _ _ => .ok ()
  builderBind := fun _ _ => .ok ()
  builderListen := fun _ _ => .ok 20
  toTcpStream := fun _ => .ok 30
  sysStreamConnect := fun _ _ => .ok 40
  sysListenerNew := fun _ _ => .ok 50
  sysStreamTryClone := fun _ => .ok 60
  sysListenerTryClone := fun _ => .ok 70
  sysAccept := fun _ => .ok (80, .V4 ⟨⟨127, 0, 0, 1⟩, 4000⟩)
  sysRead := fun _ _ => .ok (0, [])
  sysWrite := fun _ _ => .ok 0
  sysFlush := fun _ => .ok ()
  sysShutdown := fun _ _ => .ok ()
  sysSetNodelay := fun _ _ => .ok ()
  sysNodelay := fun _ => .ok false
  sysSetKeepaliveMs := fun _ _ => .ok ()
  sysKeepaliveMs := fun _ => .ok none
  sysSetTtl := fun _ _ => .ok ()
  sysTtl := fun _ => .ok 64
  sysSetOnlyV6 := fun _ _ => .ok ()
  sysOnlyV6 := fun _ => .ok false
  sysTakeError := fun _ => .ok none
  sysPeerAddr := fun _ => .ok (.V4 ⟨⟨127, 0, 0, 1⟩, 4001⟩)
  sysLocalAddr := fun _ => .ok (.V4 ⟨⟨127, 0, 0, 1⟩, 4002⟩)

/-- Wildcard test: all-zero IP, port 0, and for V6 zero flowinfo and
scope id. -/
def SocketAddr.isWildcardZero : SocketAddr → Bool
  | .V4 v => v.ip == ⟨0, 0, 0, 0⟩ && v.port == 0
  | .V6 v => v.ip == ⟨0, 0, 0, 0, 0, 0, 0, 0⟩ && v.port == 0 && v.flowinfo == 0 && v.scope_id == 0

/-- C9: `inaddr_any` returns an address of the same family as its input,
with all-zero IP component and port 0 (for V6 also flowinfo 0 and scope
id 0), and on Windows the pre-connect bind issued by `connect` binds
exactly that wildcard of the matching family. -/
theorem inaddr_any_wildcard_matching_family :
    ∀ (addr : SocketAddr),
      (inaddr_any addr).family = addr.family ∧
      (inaddr_any addr).isWildcardZero = true ∧
      (∀ (env : NetEnv) (b : Nat), env.isWindows = true →
        env.newBuilder addr.family = .ok b →
        NetCall.builderBind b (inaddr_any addr) ∈ (TcpStream.connect env addr).2) := by
  intro addr
  refine ⟨?_, ?_, ?_⟩
  · cases addr <;> rfl
  · cases addr <;> rfl
  · intro env b hw hb
    unfold TcpStream.connect winBindStep winBindCalls
    rw [hb, hw]
    simp only [if_true]
    cases h2 : env.builderBind b (inaddr_any addr) with
    | error e => simp
    | ok u =>
      cases h3 : env.toTcpStream b with
      | error e => simp
      | ok ns => simp

/-- Witness for C9 at a concrete address and environment. -/
theorem inaddr_any_wildcard_matching_family_witness :
    NetCall.builderBind 10 (inaddr_any (.V4 ⟨⟨127, 0, 0, 1⟩, 8080⟩))
      ∈ (TcpStream.connect { envOk with isWindows := true } (.V4 ⟨⟨127, 0, 0, 1⟩, 8080⟩)).2 :=
  (inaddr_any_wildcard_matching_family (.V4 ⟨⟨127, 0, 0, 1⟩, 8080⟩)).2.2
    { envOk with isWindows := true } 10 rfl rfl

/-- C10: the `Read`/`Write` implementations for `TcpStream` and for
`&TcpStream` delegate to the same underlying sys operation with the same
arguments: for every environment, stream and buffer the two paths are the
same function. -/
theorem read_write_ref_agree :
    ∀ (env : NetEnv) (st : TcpStream) (buf : List Nat),
      TcpStream.read env st buf = TcpStream.read_ref env st buf ∧
      TcpStream.write env st buf = TcpStream.write_ref env st buf ∧
      TcpStream.flush env st = TcpStream.flush_ref env st := by
  intro env st buf
  exact ⟨rfl, rfl, rfl⟩

/-- C3 counterexample: with no pending connection (the platform accept
reports would-block), `accept` returns an `Except.error` — the would-block
condition is surfaced on the error channel, not as a distinguished
non-error result, contradicting the claim (and the source's own stale
`Ok(None)` doc comment, whose shape the return type cannot even express). -/
theorem accept_wouldblock_is_error_cex :
    TcpListener.accept { envOk with sysAccept := fun _ => .error ⟨.wouldBlock, 0⟩ } ⟨5, none⟩
        = .error (.sys ⟨.wouldBlock, 0⟩) ∧
      (TcpListener.accept { envOk with sysAccept := fun _ => .error ⟨.wouldBlock, 0⟩ } ⟨5, none⟩).isOk
        = false :=
  ⟨rfl, rfl⟩

/-- C3 (amended): `accept` never blocks and passes the platform result
through: a platform error — in particular the would-block error when no
connection is pending — is surfaced unchanged as an error, and a platform
success yields a new connected stream (fresh, unset affinity) paired with
the peer's address. -/
theorem accept_passthrough :
    ∀ (env : NetEnv) (l : TcpListener),
      (∀ e, env.sysAccept l.sys = .error e →
        TcpListener.accept env l = .error (.sys e)) ∧
      (∀ s a, env.sysAccept l.sys = .ok (s, a) →
        TcpListener.accept env l = .ok (⟨s, SelectorId.new⟩, a)) := by
  intro env l
  constructor
  · intro e h
    unfold TcpListener.accept
    rw [h]
  · intro s a h
    unfold TcpListener.accept
    rw [h]

/-- Witness for C3's amended theorem at concrete inputs: the error path
with a would-block platform answer and the success path. -/
theorem accept_passthrough_witness :
    TcpListener.accept { envOk with sysAccept := fun _ => .error ⟨.other, 11⟩ } ⟨5, none⟩
        = .error (.sys ⟨.other, 11⟩) ∧
      TcpListener.accept envOk ⟨5, none⟩
        = .ok (⟨80, SelectorId.new⟩, .V4 ⟨⟨127, 0, 0, 1⟩, 4000⟩) :=
  ⟨(accept_passthrough { envOk with sysAccept := fun _ => .error ⟨.other, 11⟩ } ⟨5, none⟩).1
      ⟨.other, 11⟩ rfl,
   (accept_passthrough envOk ⟨5, none⟩).2 80 (.V4 ⟨⟨127, 0, 0, 1⟩, 4000⟩) rfl⟩

/-- C5: every construction (`connect`, `connect_stream`, `from_listener`,
every stream produced by `accept`, raw-handle adoption) carries a fresh,
unset affinity; `try_clone` instead copies the cloned handle's current
affinity value. -/
theorem fresh_affinity_on_construction :
    ∀ (env : NetEnv) (ns fd lst : Nat) (addr : SocketAddr) (st : TcpStream)
      (l : TcpListener),
      (∀ s, env.sysStreamConnect ns addr = .ok s →
        (TcpStream.connect_stream env ns addr).1 = .ok ⟨s, none⟩) ∧
      (∀ s, env.sysListenerNew lst addr = .ok s →
        (TcpListener.from_listener env lst addr).1 = .ok ⟨s, none⟩) ∧
      (∀ s a, env.sysAccept l.sys = .ok (s, a) →
        TcpListener.accept env l = .ok (⟨s, none⟩, a)) ∧
      TcpStream.from_raw_fd fd = ⟨fd, none⟩ ∧
      TcpListener.from_raw_fd fd = ⟨fd, none⟩ ∧
      (∀ s, env.sysStreamTryClone st.sys = .ok s →
        TcpStream.try_clone env st = .ok ⟨s, st.selector_id⟩) ∧
      (∀ s, env.sysListenerTryClone l.sys = .ok s →
        TcpListener.try_clone env l = .ok ⟨s, l.selector_id⟩) ∧
      (∀ b s2 ns2, env.newBuilder addr.family = .ok b →
        winBindStep env b addr = .ok () → env.toTcpStream b = .ok ns2 →
        env.sysStreamConnect ns2 addr = .ok s2 →
        (TcpStream.connect env addr).1 = .ok ⟨s2, none⟩) := by
  intro env ns fd lst addr st l
  refine ⟨?_, ?_, ?_, rfl, rfl, ?_, ?_, ?_⟩
  · intro s h
    simp [TcpStream.connect_stream, h, SelectorId.new]
  · intro s h
    simp [TcpListener.from_listener, h, SelectorId.new]
  · intro s a h
    simp [TcpListener.accept, h, SelectorId.new]
  · intro s h
    simp [TcpStream.try_clone, h, SelectorId.clone]
  · intro s h
    simp [TcpListener.try_clone, h, SelectorId.clone]
  · intro b s2 ns2 hb hw ht hc
    simp [TcpStream.connect, hb, hw, ht, TcpStream.connect_stream, hc, SelectorId.new]

/-- Witness for C5 at concrete inputs (all-success environment; a clone of
a stream whose affinity is already stamped keeps the stamped value). -/
theorem fresh_affinity_on_construction_witness :
    (TcpStream.connect envOk (.V4 ⟨⟨127, 0, 0, 1⟩, 8080⟩)).1 = .ok ⟨40, none⟩ ∧
      TcpStream.try_clone envOk ⟨7, some 3⟩ = .ok ⟨60, some 3⟩ ∧
      TcpListener.accept envOk ⟨5, some 2⟩
        = .ok (⟨80, none⟩, .V4 ⟨⟨127, 0, 0, 1⟩, 4000⟩) :=
  ⟨(fresh_affinity_on_construction envOk 0 0 0 (.V4 ⟨⟨127, 0, 0, 1⟩, 8080⟩) ⟨7, some 3⟩
      ⟨5, some 2⟩).2.2.2.2.2.2.2 10 40 30 rfl rfl rfl rfl,
   (fresh_affinity_on_construction envOk 0 0 0 (.V4 ⟨⟨127, 0, 0, 1⟩, 8080⟩) ⟨7, some 3⟩
      ⟨5, some 2⟩).2.2.2.2.2.1 60 rfl,
   (fresh_affinity_on_construction envOk 0 0 0 (.V4 ⟨⟨127, 0, 0, 1⟩, 8080⟩) ⟨7, some 3⟩
      ⟨5, some 2⟩).2.2.1 80 (.V4 ⟨⟨127, 0, 0, 1⟩, 4000⟩) rfl⟩

/-- C1: if the affinity is already stamped with a different reactor,
`register` (for both `TcpStream` and `TcpListener`) fails with the
affinity-conflict error, issues no platform subscription call (empty
`SysCall` trace), and leaves the component unchanged — whatever the
platform would have answered. -/
theorem register_conflict_before_platform :
    ∀ (st : TcpStream) (l : TcpListener) (poll : Poll) (token interest opts : Nat)
      (sysRes : Except SysError Unit) (a : Nat),
      (st.selector_id = some a → a ≠ poll.id →
        TcpStream.register st poll token interest opts sysRes
          = (st, .error .affinityConflict, [])) ∧
      (l.selector_id = some a → a ≠ poll.id →
        TcpListener.register l poll token interest opts sysRes
          = (l, .error .affinityConflict, [])) := by
  intro st l poll token interest opts sysRes a
  constructor
  · intro h hne
    unfold TcpStream.register SelectorId.associate_selector
    rw [h]
    simp [hne]
  · intro h hne
    unfold TcpListener.register SelectorId.associate_selector
    rw [h]
    simp [hne]

/-- Witness for C1: a stream stamped with reactor 1 registered against
reactor 2 (platform would have said ok) fails locally with no platform
call. -/
theorem register_conflict_before_platform_witness :
    TcpStream.register ⟨0, some 1⟩ ⟨2⟩ 0 0 0 (.ok ())
        = (⟨0, some 1⟩, .error .affinityConflict, []) ∧
      TcpListener.register ⟨9, some 1⟩ ⟨2⟩ 0 0 0 (.ok ())
        = (⟨9, some 1⟩, .error .affinityConflict, []) :=
  ⟨(register_conflict_before_platform ⟨0, some 1⟩ ⟨9, some 1⟩ ⟨2⟩ 0 0 0 (.ok ()) 1).1
      rfl (by decide),
   (register_conflict_before_platform ⟨0, some 1⟩ ⟨9, some 1⟩ ⟨2⟩ 0 0 0 (.ok ()) 1).2
      rfl (by decide)⟩

/-- C2: the affinity is set-once and idempotent — an unset affinity is
stamped by the first (affinity-passing) register with that reactor's
identity; once set, associating the same identity succeeds every time
(and a same-reactor `register` repeats successfully whenever the platform
subscription succeeds), while a different identity always fails. -/
theorem affinity_set_once_idempotent :
    ∀ (p a b : Nat) (st : TcpStream) (poll : Poll) (token interest opts : Nat)
      (sysRes : Except SysError Unit),
      SelectorId.associate_selector SelectorId.new p = .ok (some p) ∧
      SelectorId.associate_selector (some p) p = .ok (some p) ∧
      (a ≠ b → SelectorId.associate_selector (some a) b = .error .affinityConflict) ∧
      (st.selector_id = none →
        TcpStream.register st poll token interest opts (.ok ())
          = (⟨st.sys, some poll.id⟩, .ok (), [.register st.sys poll.id token interest opts])) ∧
      (st.selector_id = some poll.id →
        TcpStream.register st poll token interest opts (.ok ())
          = (st, .ok (), [.register st.sys poll.id token interest opts])) ∧
      (st.selector_id = some a → a ≠ poll.id →
        (TcpStream.register st poll token interest opts sysRes).2.1
          = .error .affinityConflict) := by
  intro p a b st poll token interest opts sysRes
  refine ⟨rfl, by simp [SelectorId.associate_selector], ?_, ?_, ?_, ?_⟩
  · intro hne
    simp [SelectorId.associate_selector, hne]
  · intro h
    unfold TcpStream.register SelectorId.associate_selector
    rw [h]
    rfl
  · intro h
    obtain ⟨sys, sid⟩ := st
    simp only at h
    subst h
    unfold TcpStream.register SelectorId.associate_selector
    simp [liftSys]
  · intro h hne
    unfold TcpStream.register SelectorId.associate_selector
    rw [h]
    simp [hne]

/-- Witness for C2: first register stamps; repeating with the same reactor
succeeds again; a different reactor is rejected. -/
theorem affinity_set_once_idempotent_witness :
    TcpStream.register ⟨3, none⟩ ⟨4⟩ 1 2 5 (.ok ())
        = (⟨3, some 4⟩, .ok (), [.register 3 4 1 2 5]) ∧
      TcpStream.register ⟨3, some 4⟩ ⟨4⟩ 1 2 5 (.ok ())
        = (⟨3, some 4⟩, .ok (), [.register 3 4 1 2 5]) ∧
      (TcpStream.register ⟨3, some 4⟩ ⟨9⟩ 1 2 5 (.ok ())).2.1
        = .error .affinityConflict :=
  ⟨(affinity_set_once_idempotent 0 0 0 ⟨3, none⟩ ⟨4⟩ 1 2 5 (.ok ())).2.2.2.1 rfl,
   (affinity_set_once_idempotent 0 0 0 ⟨3, some 4⟩ ⟨4⟩ 1 2 5 (.ok ())).2.2.2.2.1 rfl,
   (affinity_set_once_idempotent 0 4 0 ⟨3, some 4⟩ ⟨9⟩ 1 2 5 (.ok ())).2.2.2.2.2
      rfl (by decide)⟩

/-- C4: `reregister` and `deregister` on both components perform no
affinity check and delegate directly to the platform layer — their result
is exactly the lifted platform answer (so on a never-registered instance a
platform "not found" error comes back as that platform error), and they
can never produce the locally raised affinity-conflict error. -/
theorem reregister_deregister_no_affinity_check :
    ∀ (st : TcpStream) (l : TcpListener) (poll : Poll) (token interest opts : Nat)
      (sysRes : Except SysError Unit) (e : SysError),
      TcpStream.reregister st poll token interest opts sysRes
        = (st, liftSys sysRes, [.reregister st.sys poll.id token interest opts]) ∧
      TcpStream.deregister st poll sysRes
        = (st, liftSys sysRes, [.deregister st.sys poll.id]) ∧
      TcpListener.reregister l poll token interest opts sysRes
        = (l, liftSys sysRes, [.reregister l.sys poll.id token interest opts]) ∧
      TcpListener.deregister l poll sysRes
        = (l, liftSys sysRes, [.deregister l.sys poll.id]) ∧
      (TcpStream.reregister st poll token interest opts (.error e)).2.1
        = .error (.sys e) ∧
      (TcpListener.deregister l poll (.error e)).2.1 = .error (.sys e) ∧
      (TcpStream.reregister st poll token interest opts sysRes).2.1
        ≠ .error .affinityConflict ∧
      (TcpStream.deregister st poll sysRes).2.1 ≠ .error .affinityConflict ∧
      (TcpListener.reregister l poll token interest opts sysRes).2.1
        ≠ .error .affinityConflict ∧
      (TcpListener.deregister l poll sysRes).2.1 ≠ .error .affinityConflict := by
  intro st l poll token interest opts sysRes e
  refine ⟨rfl, rfl, rfl, rfl, rfl, rfl, ?_, ?_, ?_, ?_⟩ <;>
    cases sysRes <;> simp [TcpStream.reregister, TcpStream.deregister,
      TcpListener.reregister, TcpListener.deregister, liftSys]

/-- Spec-side composition for `bind` (spec §4.3): perform the
socket-construction steps (family-matching builder, Unix-only address
reuse, bind, listen 1024) and then invoke the lower-level adoption entry
point `from_listener` on the resulting listening socket. -/
def TcpListener.bind_via_from_listener (env : NetEnv) (addr : SocketAddr) :
    Except IoError TcpListener × List NetCall :=
  match env.newBuilder addr.family with
  | .error e => (.error (.sys e), [.newBuilder addr.family])
  | .ok sock =>
    match reuseStep env sock with
    | .error e => (.error (.sys e), .newBuilder addr.family :: reuseCalls env sock)
    | .ok _ =>
      match env.builderBind sock addr with
      | .error e =>
        (.error (.sys e), .newBuilder addr.family :: reuseCalls env sock ++ [.builderBind sock addr])
      | .ok _ =>
        match env.builderListen sock 1024 with
        | .error e =>
          (.error (.sys e),
           .newBuilder addr.family :: reuseCalls env sock ++ [.builderBind sock addr, .builderListen sock 1024])
        | .ok listener =>
          let fl := TcpListener.from_listener env listener addr
          (fl.1,
           .newBuilder addr.family :: reuseCalls env sock ++
             [.builderBind sock addr, .builderListen sock 1024] ++ fl.2)

/-- C6: the high-level entry points are implemented in terms of the
lower-level ones — `bind` coincides (result and platform-call trace) with
"construct/configure the socket, then `from_listener`", and whenever the
socket-construction prefix of `connect` succeeds, `connect` finishes
exactly as `connect_stream` on the constructed socket. -/
theorem connect_bind_via_lower_entry_points :
    ∀ (env : NetEnv) (addr : SocketAddr),
      TcpListener.bind env addr = TcpListener.bind_via_from_listener env addr ∧
      (∀ b ns, env.newBuilder addr.family = .ok b → winBindStep env b addr = .ok () →
        env.toTcpStream b = .ok ns →
        TcpStream.connect env addr
          = ((TcpStream.connect_stream env ns addr).1,
             .newBuilder addr.family :: winBindCalls env b addr ++ [.toTcpStream b]
               ++ (TcpStream.connect_stream env ns addr).2)) := by
  intro env addr
  constructor
  · rcases h1 : env.newBuilder addr.family with e | sock
    · simp [TcpListener.bind, TcpListener.bind_via_from_listener, h1]
    · rcases h2 : reuseStep env sock with e | u
      · simp [TcpListener.bind, TcpListener.bind_via_from_listener, h1, h2]
      · rcases h3 : env.builderBind sock addr with e | u2
        · simp [TcpListener.bind, TcpListener.bind_via_from_listener, h1, h2, h3]
        · rcases h4 : env.builderListen sock 1024 with e | listener
          · simp [TcpListener.bind, TcpListener.bind_via_from_listener, h1, h2, h3, h4]
          · rcases h5 : env.sysListenerNew listener addr with e | s
            · simp [TcpListener.bind, TcpListener.bind_via_from_listener,
                TcpListener.from_listener, h1, h2, h3, h4, h5]
            · simp [TcpListener.bind, TcpListener.bind_via_from_listener,
                TcpListener.from_listener, h1, h2, h3, h4, h5]
  · intro b ns hb hw ht
    simp [TcpStream.connect, hb, hw, ht]

/-- Witness for C6's connect half at a concrete environment (the bind half
is hypothesis-free). -/
theorem connect_bind_via_lower_entry_points_witness :
    TcpStream.connect envOk (.V4 ⟨⟨127, 0, 0, 1⟩, 8080⟩)
      = ((TcpStream.connect_stream envOk 30 (.V4 ⟨⟨127, 0, 0, 1⟩, 8080⟩)).1,
         .newBuilder .v4 :: winBindCalls envOk 10 (.V4 ⟨⟨127, 0, 0, 1⟩, 8080⟩)
           ++ [.toTcpStream 10]
           ++ (TcpStream.connect_stream envOk 30 (.V4 ⟨⟨127, 0, 0, 1⟩, 8080⟩)).2) :=
  (connect_bind_via_lower_entry_points envOk (.V4 ⟨⟨127, 0, 0, 1⟩, 8080⟩)).2
    10 30 rfl rfl rfl

/-- C7: `bind` performs exactly its documented steps in order — a builder
of the address's family first, the address-reuse step only on Unix, then
bind, then listen with the fixed backlog 1024, then the `sys` wrap; the
first failing step stops the sequence (the later platform calls are not
issued) and the whole operation returns that error, never a listener. -/
theorem bind_steps_in_order :
    ∀ (env : NetEnv) (addr : SocketAddr),
      (∀ e, env.newBuilder addr.family = .error e →
        TcpListener.bind env addr = (.error (.sys e), [.newBuilder addr.family])) ∧
      (env.isUnix = false → ∀ b, reuseCalls env b = [] ∧ reuseStep env b = .ok ()) ∧
      (env.isUnix = true → ∀ b, reuseCalls env b = [.reuseAddress b true] ∧
        reuseStep env b = env.reuseAddress b true) ∧
      (∀ b e, env.newBuilder addr.family = .ok b → reuseStep env b = .error e →
        TcpListener.bind env addr
          = (.error (.sys e), .newBuilder addr.family :: reuseCalls env b)) ∧
      (∀ b e, env.newBuilder addr.family = .ok b → reuseStep env b = .ok () →
        env.builderBind b addr = .error e →
        TcpListener.bind env addr
          = (.error (.sys e),
             .newBuilder addr.family :: reuseCalls env b ++ [.builderBind b addr])) ∧
      (∀ b e, env.newBuilder addr.family = .ok b → reuseStep env b = .ok () →
        env.builderBind b addr = .ok () → env.builderListen b 1024 = .error e →
        TcpListener.bind env addr
          = (.error (.sys e),
             .newBuilder addr.family :: reuseCalls env b
               ++ [.builderBind b addr, .builderListen b 1024])) ∧
      (∀ b lst e, env.newBuilder addr.family = .ok b → reuseStep env b = .ok () →
        env.builderBind b addr = .ok () → env.builderListen b 1024 = .ok lst →
        env.sysListenerNew lst addr = .error e →
        TcpListener.bind env addr
          = (.error (.sys e),
             .newBuilder addr.family :: reuseCalls env b
               ++ [.builderBind b addr, .builderListen b 1024, .sysListenerNew lst addr])) ∧
      (∀ b lst s, env.newBuilder addr.family = .ok b → reuseStep env b = .ok () →
        env.builderBind b addr = .ok () → env.builderListen b 1024 = .ok lst →
        env.sysListenerNew lst addr = .ok s →
        TcpListener.bind env addr
          = (.ok ⟨s, none⟩,
             .newBuilder addr.family :: reuseCalls env b
               ++ [.builderBind b addr, .builderListen b 1024, .sysListenerNew lst addr])) := by
  intro env addr
  refine ⟨?_, ?_, ?_, ?_, ?_, ?_, ?_, ?_⟩
  · intro e h
    simp [TcpListener.bind, h]
  · intro h b
    simp [reuseCalls, reuseStep, h]
  · intro h b
    simp [reuseCalls, reuseStep, h]
  · intro b e hb hr
    simp [TcpListener.bind, hb, hr]
  · intro b e hb hr h2
    simp [TcpListener.bind, hb, hr, h2]
  · intro b e hb hr h2 h3
    simp [TcpListener.bind, hb, hr, h2, h3]
  · intro b lst e hb hr h2 h3 h4
    simp [TcpListener.bind, hb, hr, h2, h3, h4]
  · intro b lst s hb hr h2 h3 h4
    simp [TcpListener.bind, hb, hr, h2, h3, h4, SelectorId.new]

/-- Witness for C7: the full success path on the all-success Unix
environment, and the stop-at-first-failure path when `listen` is
rejected. -/
theorem bind_steps_in_order_witness :
    TcpListener.bind envOk (.V4 ⟨⟨127, 0, 0, 1⟩, 8080⟩)
        = (.ok ⟨50, none⟩,
           [.newBuilder .v4, .reuseAddress 10 true, .builderBind 10 (.V4 ⟨⟨127, 0, 0, 1⟩, 8080⟩),
            .builderListen 10 1024, .sysListenerNew 20 (.V4 ⟨⟨127, 0, 0, 1⟩, 8080⟩)]) ∧
      TcpListener.bind { envOk with builderListen := fun _ _ => .error ⟨.other, 3⟩ }
          (.V4 ⟨⟨127, 0, 0, 1⟩, 8080⟩)
        = (.error (.sys ⟨.other, 3⟩),
           [.newBuilder .v4, .reuseAddress 10 true, .builderBind 10 (.V4 ⟨⟨127, 0, 0, 1⟩, 8080⟩),
            .builderListen 10 1024]) :=
  ⟨(bind_steps_in_order envOk (.V4 ⟨⟨127, 0, 0, 1⟩, 8080⟩)).2.2.2.2.2.2.2
      10 20 50 rfl rfl rfl rfl rfl,
   (bind_steps_in_order { envOk with builderListen := fun _ _ => .error ⟨.other, 3⟩ }
      (.V4 ⟨⟨127, 0, 0, 1⟩, 8080⟩)).2.2.2.2.2.1 10 ⟨.other, 3⟩ rfl rfl rfl rfl⟩

/-- C8 counterexample: a first `register` whose platform subscription
fails is not a successful register, yet it has already stamped the
affinity (the stamp happens before the platform call, per spec §4.1's
"stamps ... then delegates") — so the unset→set transition is not
performed only by the first *successful* register. -/
theorem register_failed_still_stamps_cex :
    (TcpStream.register ⟨3, none⟩ ⟨7⟩ 0 0 0 (.error ⟨.notFound, 0⟩)).1.selector_id
        = some 7 ∧
      (TcpStream.register ⟨3, none⟩ ⟨7⟩ 0 0 0 (.error ⟨.notFound, 0⟩)).2.1
        = .error (.sys ⟨.notFound, 0⟩) :=
  ⟨rfl, rfl⟩

/-- C8 (amended): the affinity is mutated at most once — the single
transition from unset to set, performed by the first `register` that
passes the affinity check (even when the subsequent platform subscription
fails); once set it never changes, and every other operation returns the
receiver with its affinity field unchanged. -/
theorem affinity_mutation_frame :
    ∀ (env : NetEnv) (st : TcpStream) (l : TcpListener) (poll : Poll)
      (token interest opts v x : Nat) (bval : Bool) (how : Shutdown)
      (sysRes : Except SysError Unit) (buf : List Nat) (ka : Option Nat),
      (st.selector_id = none →
        (TcpStream.register st poll token interest opts sysRes).1.selector_id
          = some poll.id) ∧
      (st.selector_id = some x →
        (TcpStream.register st poll token interest opts sysRes).1.selector_id
          = some x) ∧
      (l.selector_id = none →
        (TcpListener.register l poll token interest opts sysRes).1.selector_id
          = some poll.id) ∧
      (l.selector_id = some x →
        (TcpListener.register l poll token interest opts sysRes).1.selector_id
          = some x) ∧
      (TcpStream.reregister st poll token interest opts sysRes).1 = st ∧
      (TcpStream.deregister st poll sysRes).1 = st ∧
      (TcpListener.reregister l poll token interest opts sysRes).1 = l ∧
      (TcpListener.deregister l poll sysRes).1 = l ∧
      (TcpStream.shutdown env st how).1 = st ∧
      (TcpStream.set_nodelay env st bval).1 = st ∧
      (TcpStream.nodelay env st).1 = st ∧
      (TcpStream.set_keepalive_ms env st ka).1 = st ∧
      (TcpStream.keepalive_ms env st).1 = st ∧
      (TcpStream.set_ttl env st v).1 = st ∧
      (TcpStream.ttl env st).1 = st ∧
      (TcpStream.take_error env st).1 = st ∧
      (TcpStream.peer_addr env st).1 = st ∧
      (TcpStream.local_addr env st).1 = st ∧
      (TcpStream.read env st buf).1 = st ∧
      (TcpStream.write env st buf).1 = st ∧
      (TcpStream.flush env st).1 = st ∧
      (TcpListener.local_addr env l).1 = l ∧
      (TcpListener.set_ttl env l v).1 = l ∧
      (TcpListener.ttl env l).1 = l ∧
      (TcpListener.set_only_v6 env l bval).1 = l ∧
      (TcpListener.only_v6 env l).1 = l ∧
      (TcpListener.take_error env l).1 = l := by
  intro env st l poll token interest opts v x bval how sysRes buf ka
  refine ⟨?_, ?_, ?_, ?_, rfl, rfl, rfl, rfl, rfl, rfl, rfl, rfl, rfl, rfl, rfl,
    rfl, rfl, rfl, rfl, rfl, rfl, rfl, rfl, rfl, rfl, rfl, rfl⟩
  · intro h
    unfold TcpStream.register SelectorId.associate_selector
    rw [h]
  · intro h
    unfold TcpStream.register SelectorId.associate_selector
    rw [h]
    by_cases hx : x = poll.id <;> simp [hx, h]
  · intro h
    unfold TcpListener.register SelectorId.associate_selector
    rw [h]
  · intro h
    unfold TcpListener.register SelectorId.associate_selector
    rw [h]
    by_cases hx : x = poll.id <;> simp [hx, h]

/-- Witness for C8's amended theorem: a first register stamps (here even
with a failing platform answer), a stamped stream keeps its value under a
conflicting register, and `reregister` leaves the receiver unchanged. -/
theorem affinity_mutation_frame_witness :
    (TcpStream.register ⟨3, none⟩ ⟨7⟩ 0 0 0 (.error ⟨.other, 1⟩)).1.selector_id
        = some 7 ∧
      (TcpStream.register ⟨3, some 9⟩ ⟨7⟩ 0 0 0 (.ok ())).1.selector_id = some 9 ∧
      (TcpStream.reregister ⟨3, none⟩ ⟨7⟩ 0 0 0 (.ok ())).1 = ⟨3, none⟩ :=
  ⟨(affinity_mutation_frame envOk ⟨3, none⟩ ⟨0, none⟩ ⟨7⟩ 0 0 0 0 0 false .both
      (.error ⟨.other, 1⟩) [] none).1 rfl,
   (affinity_mutation_frame envOk ⟨3, some 9⟩ ⟨0, none⟩ ⟨7⟩ 0 0 0 0 9 false .both
      (.ok ()) [] none).2.1 rfl,
   (affinity_mutation_frame envOk ⟨3, none⟩ ⟨0, none⟩ ⟨7⟩ 0 0 0 0 0 false .both
      (.ok ()) [] none).2.2.2.2.1⟩
